import Mathlib

/-!
Verification of the connection-pool lifecycle manager of the go-bitdotio SDK
(package bitdotio, file bitdotio.go).

The pool manager is embedded shallowly:
- the external pgxpool mechanism (pool establishment, connection acquisition)
  is an environment of functions supplied to each operation;
- the registry state is the access token plus the map from database name to
  pool handle, modelled as a function to an optional handle;
- each operation additionally returns the list of external events it performed
  (lock operations, acquires, releases, pool establishment, pool closes), in
  order, so that lock discipline and context usage are statable.

Pool handles and connections are opaque; we represent them by natural-number
identifiers whose behaviour is determined by the environment.
-/

namespace Bitdotio

/-- Opaque pgxpool pool handle, identified by a token. -/
abbrev Pool := Nat

/-- Opaque pgxpool connection, identified by a token. -/
abbrev Conn := Nat

/-- A Go context as far as this component observes it: either the
non-cancellable context.Background() used by the staleness probe, or an
arbitrary caller-supplied context (which may be cancelled; its identity is
all that matters here, since contexts are only passed through). -/
inductive Ctx where
  | background : Ctx
  | caller : Nat → Ctx
deriving DecidableEq

/-- Result of a Go call returning (value, error): either a value, or an error
carrying the string that err.Error() yields. -/
inductive GoResult (α : Type) where
  | ok : α → GoResult α
  | err : String → GoResult α
deriving DecidableEq

/-- Lock operations on the registry sync.RWMutex. -/
inductive LockEv where
  | lockExcl : LockEv
  | unlockExcl : LockEv
  | rlock : LockEv
  | runlock : LockEv
deriving DecidableEq

/-- External events performed by a registry operation, in order. -/
inductive Event where
  | lock : LockEv → Event
  | acquire : Pool → Ctx → Event
  | release : Conn → Event
  | newPool : Ctx → String → Event
  | closePool : Pool → Event
deriving DecidableEq

/-- The external pgxpool mechanism: Pool.Acquire and pgxpool.New.
Acquire yields a connection or an error whose message is compared against
the literal closed-pool signal; New establishes a pool from a connection
string within a context or fails. -/
structure PgxEnv where
  acquire : Pool → Ctx → GoResult Conn
  newPool : Ctx → String → GoResult Pool

/-- The BitDotIO registry state observed by the pool methods: the immutable
access token and the pools map (map from database name to pool handle).
The HTTP APIClient field of the Go struct is never touched by the pool
methods and is omitted; the sync.RWMutex is modelled through lock events. -/
structure BitDotIO where
  accessToken : String
  pools : String → Option Pool

/-- UserAgent constant: AppName plus the SDK version, used as the user of
the connection string. -/
def UserAgent : String := "go-bitdotio-sdk/" ++ "0.0.0b"

/-- DBHost constant for database connections. -/
def DBHost : String := "db.bit.io"

/-- DBPort constant for database connections. -/
def DBPort : String := "5432"

/-- SSLMode constant: strict TLS requirement. -/
def SSLMode : String := "require"

/-- PoolMinConns constant: minimum number of connections per pool. -/
def PoolMinConns : Int := 0

/-- MaxConnIdleTime constant: maximum idle duration, below the server-side
idle timeout. -/
def MaxConnIdleTime : String := "299s"

/-- The fixed part of the pgxpool connection string produced by
getConnString: the Sprintf of user, password, host, port, dbname, sslmode,
pool_min_conns and pool_max_conn_idle_time. -/
def connStringBase (b : BitDotIO) (dbName : String) : String :=
  "user=" ++ UserAgent ++
  " password=" ++ b.accessToken ++
  " host=" ++ DBHost ++
  " port=" ++ DBPort ++
  " dbname=" ++ dbName ++
  " sslmode=" ++ SSLMode ++
  " pool_min_conns=" ++ toString PoolMinConns ++
  " pool_max_conn_idle_time=" ++ MaxConnIdleTime

/-- getConnString generates a pgxpool connection string for a particular
bit.io database; maxConns is the int32 argument (any int32 value, embedded
in Int; Go %d and Lean toString agree on that range). When maxConns is not
zero a pool_max_conns parameter is appended. -/
def getConnString (b : BitDotIO) (dbName : String) (maxConns : Int) : String :=
  let connString := connStringBase b dbName
  if maxConns ≠ 0 then
    connString ++ " pool_max_conns=" ++ toString maxConns
  else
    connString

/-- The tail of CreatePoolWithMaxConns after the existing-entry check:
pgxpool.New within the caller context, wrap failure, install on success.
pre is the event prefix already performed; the deferred Unlock closes
every trace. -/
def establishPool (env : PgxEnv) (b : BitDotIO) (ctx : Ctx)
    (dbName : String) (maxConns : Int) (pre : List Event) :
    GoResult Pool × BitDotIO × List Event :=
  let connString := getConnString b dbName maxConns
  match env.newPool ctx connString with
  | GoResult.err msg =>
      (GoResult.err ("unable to create pool for db " ++ dbName ++ ": " ++ msg), b,
        pre ++ [Event.newPool ctx connString, Event.lock LockEv.unlockExcl])
  | GoResult.ok pool =>
      (GoResult.ok pool,
        { b with pools := fun x => if x = dbName then some pool else b.pools x },
        pre ++ [Event.newPool ctx connString, Event.lock LockEv.unlockExcl])

/-- CreatePoolWithMaxConns establishes a new connection pool for a bit.io
database with a specified max number of connections. Transcribed from the
Go source: take the exclusive lock (released by defer on every return
path); if an entry exists, probe it by acquiring from it with
context.Background(); on successful probe release the connection and fail
with the duplicate-pool error; on a probe error other than the literal
closed-pool message fail with the indeterminate-state error; otherwise
fall through to establishment. -/
def CreatePoolWithMaxConns (env : PgxEnv) (b : BitDotIO) (ctx : Ctx)
    (dbName : String) (maxConns : Int) :
    GoResult Pool × BitDotIO × List Event :=
  match b.pools dbName with
  | some pool =>
      match env.acquire pool Ctx.background with
      | GoResult.ok conn =>
          (GoResult.err ("pool already exists for db \x27" ++ dbName ++ "\x27"), b,
            [Event.lock LockEv.lockExcl, Event.acquire pool Ctx.background,
             Event.release conn, Event.lock LockEv.unlockExcl])
      | GoResult.err msg =>
          if msg ≠ "closed pool" then
            (GoResult.err ("found an existing pool for db " ++ dbName ++
                " and unable to verify closed state"), b,
              [Event.lock LockEv.lockExcl, Event.acquire pool Ctx.background,
               Event.lock LockEv.unlockExcl])
          else
            establishPool env b ctx dbName maxConns
              [Event.lock LockEv.lockExcl, Event.acquire pool Ctx.background]
  | none =>
      establishPool env b ctx dbName maxConns [Event.lock LockEv.lockExcl]

/-- CreatePool establishes a new connection pool for a bit.io database;
0 maxConnections is a sentinel for the pgxpool default. -/
def CreatePool (env : PgxEnv) (b : BitDotIO) (ctx : Ctx) (dbName : String) :
    GoResult Pool × BitDotIO × List Event :=
  CreatePoolWithMaxConns env b ctx dbName 0

/-- GetPool retrieves an existing connection pool for a bit.io database.
Transcribed from the Go source as written: it calls RLock and then defers
a second RLock (not RUnlock), so its event trace is two read-lock
acquisitions and no release. No state change. -/
def GetPool (b : BitDotIO) (dbName : String) :
    GoResult Pool × List Event :=
  match b.pools dbName with
  | some pool => (GoResult.ok pool, [Event.lock LockEv.rlock, Event.lock LockEv.rlock])
  | none =>
      (GoResult.err ("pool does not exist for db " ++ dbName),
        [Event.lock LockEv.rlock, Event.lock LockEv.rlock])

/-- Connect acquires a connection from an existing pool for a bit.io
database: look up via GetPool, then Acquire within the caller context,
wrapping either failure with the database name. No state change. -/
def Connect (env : PgxEnv) (b : BitDotIO) (ctx : Ctx) (dbName : String) :
    GoResult Conn × List Event :=
  match GetPool b dbName with
  | (GoResult.err msg, tr) =>
      (GoResult.err ("unable to acquire a connection for db " ++ dbName ++ ": " ++ msg), tr)
  | (GoResult.ok pool, tr) =>
      match env.acquire pool ctx with
      | GoResult.err msg =>
          (GoResult.err ("unable to acquire a connection for db " ++ dbName ++ ": " ++ msg),
            tr ++ [Event.acquire pool ctx])
      | GoResult.ok conn => (GoResult.ok conn, tr ++ [Event.acquire pool ctx])

/-- ClosePool closes a connection pool for a bit.io database: exclusive
lock; if an entry exists, close the handle and delete the map entry; else
fail with the no-open-pool error. -/
def ClosePool (b : BitDotIO) (dbName : String) :
    GoResult Unit × BitDotIO × List Event :=
  match b.pools dbName with
  | some pool =>
      (GoResult.ok (),
        { b with pools := fun x => if x = dbName then none else b.pools x },
        [Event.lock LockEv.lockExcl, Event.closePool pool, Event.lock LockEv.unlockExcl])
  | none =>
      (GoResult.err ("no open pool found for db " ++ dbName), b,
        [Event.lock LockEv.lockExcl, Event.lock LockEv.unlockExcl])

/-- Number of acquire events in a trace. -/
def countAcquires : List Event → Nat
  | [] => 0
  | Event.acquire _ _ :: rest => 1 + countAcquires rest
  | _ :: rest => countAcquires rest

/-- Number of newPool (establishment) events in a trace. -/
def countNewPools : List Event → Nat
  | [] => 0
  | Event.newPool _ _ :: rest => 1 + countNewPools rest
  | _ :: rest => countNewPools rest

/-- Concrete environment used by the witnesses: handle 1 is live, handle 2
is closed (acquire fails with the closed-pool message), handle 3 fails the
probe with an unrelated error; establishment succeeds with handle 7 except
for caller context 99, where it fails. -/
def envC : PgxEnv where
  acquire := fun p _ =>
    if p = 1 then GoResult.ok 10
    else if p = 2 then GoResult.err "closed pool"
    else GoResult.err "network timeout"
  newPool := fun c _ =>
    if c = Ctx.caller 99 then GoResult.err "dial error" else GoResult.ok 7

/-- Witness registry state: a live handle (1) stored under u/db. -/
def bLive : BitDotIO :=
  { accessToken := "tok", pools := fun x => if x = "u/db" then some 1 else none }

/-- Witness registry state: a stale, closed handle (2) stored under u/db. -/
def bStale : BitDotIO :=
  { accessToken := "tok", pools := fun x => if x = "u/db" then some 2 else none }

/-- Witness registry state: a handle (3) whose probe fails oddly, stored
under u/db. -/
def bOdd : BitDotIO :=
  { accessToken := "tok", pools := fun x => if x = "u/db" then some 3 else none }

/-- Witness registry state: empty registry. -/
def bEmpty : BitDotIO :=
  { accessToken := "tok", pools := fun _ => none }

/-- Claim C1: when the entry stored under a database name is a live pool
(its background-context acquire probe succeeds), CreatePoolWithMaxConns and
CreatePool fail with the duplicate-pool error, the registry state (hence the
map entry for that name) is unchanged, and the entry still holds the
existing handle: a second CreatePool without an intervening ClosePool never
installs a second open handle for the name. -/
theorem createPool_duplicate_live (env : PgxEnv) (b : BitDotIO) (ctx : Ctx)
    (dbName : String) (maxConns : Int) (pool : Pool) (conn : Conn)
    (hlook : b.pools dbName = some pool)
    (hlive : env.acquire pool Ctx.background = GoResult.ok conn) :
    (CreatePoolWithMaxConns env b ctx dbName maxConns).1
        = GoResult.err ("pool already exists for db \x27" ++ dbName ++ "\x27")
    ∧ (CreatePoolWithMaxConns env b ctx dbName maxConns).2.1 = b
    ∧ (CreatePool env b ctx dbName).1
        = GoResult.err ("pool already exists for db \x27" ++ dbName ++ "\x27")
    ∧ (CreatePool env b ctx dbName).2.1 = b
    ∧ (CreatePool env b ctx dbName).2.1.pools dbName = some pool := by
  simp [CreatePool, CreatePoolWithMaxConns, hlook, hlive]

/-- Witness for C1: in the concrete environment with live handle 1 stored
under u/db, the duplicate-pool error is returned and the state unchanged. -/
theorem createPool_duplicate_live_witness :
    (CreatePoolWithMaxConns envC bLive (Ctx.caller 0) "u/db" 0).1
        = GoResult.err ("pool already exists for db \x27" ++ "u/db" ++ "\x27")
    ∧ (CreatePoolWithMaxConns envC bLive (Ctx.caller 0) "u/db" 0).2.1 = bLive
    ∧ (CreatePool envC bLive (Ctx.caller 0) "u/db").1
        = GoResult.err ("pool already exists for db \x27" ++ "u/db" ++ "\x27")
    ∧ (CreatePool envC bLive (Ctx.caller 0) "u/db").2.1 = bLive
    ∧ (CreatePool envC bLive (Ctx.caller 0) "u/db").2.1.pools "u/db" = some 1 :=
  createPool_duplicate_live envC bLive (Ctx.caller 0) "u/db" 0 1 10 rfl rfl

/-- Claim C2: when the stored entry is stale (its background-context probe
fails with exactly the closed-pool message) and establishment succeeds,
CreatePoolWithMaxConns returns the new handle, installs it at the name
(overwriting the stale entry), and leaves every other map entry unchanged. -/
theorem createPool_stale_replace (env : PgxEnv) (b : BitDotIO) (ctx : Ctx)
    (dbName : String) (maxConns : Int) (pool newP : Pool)
    (hlook : b.pools dbName = some pool)
    (hstale : env.acquire pool Ctx.background = GoResult.err "closed pool")
    (hnew : env.newPool ctx (getConnString b dbName maxConns) = GoResult.ok newP) :
    (CreatePoolWithMaxConns env b ctx dbName maxConns).1 = GoResult.ok newP
    ∧ (CreatePoolWithMaxConns env b ctx dbName maxConns).2.1.pools dbName = some newP
    ∧ ∀ x, x ≠ dbName →
        (CreatePoolWithMaxConns env b ctx dbName maxConns).2.1.pools x = b.pools x := by
  refine ⟨?_, ?_, ?_⟩ <;>
    simp [CreatePoolWithMaxConns, hlook, hstale, establishPool, hnew]
  intro x hx
  simp [hx]

/-- Witness for C2: with stale handle 2 stored under u/db, CreatePool
replaces it with the freshly established handle 7. -/
theorem createPool_stale_replace_witness :
    (CreatePoolWithMaxConns envC bStale (Ctx.caller 0) "u/db" 0).1 = GoResult.ok 7
    ∧ (CreatePoolWithMaxConns envC bStale (Ctx.caller 0) "u/db" 0).2.1.pools "u/db"
        = some 7
    ∧ ∀ x, x ≠ "u/db" →
        (CreatePoolWithMaxConns envC bStale (Ctx.caller 0) "u/db" 0).2.1.pools x
          = bStale.pools x :=
  createPool_stale_replace envC bStale (Ctx.caller 0) "u/db" 0 2 7 rfl rfl rfl

/-- Claim C3: when the stored entry exists and its probe fails with any
error other than the closed-pool signal, CreatePoolWithMaxConns fails with
the indeterminate-state error, the registry state is unchanged, and no pool
establishment is performed. -/
theorem createPool_indeterminate (env : PgxEnv) (b : BitDotIO) (ctx : Ctx)
    (dbName : String) (maxConns : Int) (pool : Pool) (msg : String)
    (hlook : b.pools dbName = some pool)
    (herr : env.acquire pool Ctx.background = GoResult.err msg)
    (hne : msg ≠ "closed pool") :
    (CreatePoolWithMaxConns env b ctx dbName maxConns).1
      = GoResult.err ("found an existing pool for db " ++ dbName ++
          " and unable to verify closed state")
    ∧ (CreatePoolWithMaxConns env b ctx dbName maxConns).2.1 = b
    ∧ countNewPools (CreatePoolWithMaxConns env b ctx dbName maxConns).2.2 = 0 := by
  simp [CreatePoolWithMaxConns, hlook, herr, hne, countNewPools]

/-- Witness for C3: handle 3 under u/db probes with a network-timeout
error, so creation fails indeterminate and the state is untouched. -/
theorem createPool_indeterminate_witness :
    (CreatePoolWithMaxConns envC bOdd (Ctx.caller 0) "u/db" 0).1
      = GoResult.err ("found an existing pool for db " ++ "u/db" ++
          " and unable to verify closed state")
    ∧ (CreatePoolWithMaxConns envC bOdd (Ctx.caller 0) "u/db" 0).2.1 = bOdd
    ∧ countNewPools (CreatePoolWithMaxConns envC bOdd (Ctx.caller 0) "u/db" 0).2.2 = 0 :=
  createPool_indeterminate envC bOdd (Ctx.caller 0) "u/db" 0 3 "network timeout"
    rfl rfl (by decide)

/-- Claim C4, refuted by the code: the trace of GetPool on the empty
registry is two read-lock acquisitions and contains no read-unlock. The Go
source defers a second RLock instead of RUnlock, so GetPool never releases
the shared lock before returning, contradicting the claimed lock
discipline. -/
theorem getPool_lock_bug :
    (GetPool bEmpty "u/db").2 = [Event.lock LockEv.rlock, Event.lock LockEv.rlock]
    ∧ Event.lock LockEv.runlock ∉ (GetPool bEmpty "u/db").2
    ∧ Event.lock LockEv.runlock ∉ (GetPool bLive "u/db").2 := by
  refine ⟨rfl, by decide, by decide⟩

/-- Claim C5: when the code reaches pool establishment (no entry, or a
stale entry) and pgxpool.New fails, CreatePoolWithMaxConns returns the
establishment error wrapped with the database name and the underlying
message, and the registry state is exactly as before. -/
theorem createPool_establish_fail (env : PgxEnv) (b : BitDotIO) (ctx : Ctx)
    (dbName : String) (maxConns : Int) (msg : String)
    (hreach : b.pools dbName = none ∨
      ∃ pool, b.pools dbName = some pool ∧
        env.acquire pool Ctx.background = GoResult.err "closed pool")
    (hfail : env.newPool ctx (getConnString b dbName maxConns) = GoResult.err msg) :
    (CreatePoolWithMaxConns env b ctx dbName maxConns).1
      = GoResult.err ("unable to create pool for db " ++ dbName ++ ": " ++ msg)
    ∧ (CreatePoolWithMaxConns env b ctx dbName maxConns).2.1 = b := by
  rcases hreach with hnone | ⟨pool, hsome, hstale⟩
  · simp [CreatePoolWithMaxConns, hnone, establishPool, hfail]
  · simp [CreatePoolWithMaxConns, hsome, hstale, establishPool, hfail]

/-- Witness for C5: establishment under caller context 99 fails with a
dial error; the empty registry stays empty and the wrapped error names
the database. -/
theorem createPool_establish_fail_witness :
    (CreatePoolWithMaxConns envC bEmpty (Ctx.caller 99) "u/db" 0).1
      = GoResult.err ("unable to create pool for db " ++ "u/db" ++ ": " ++ "dial error")
    ∧ (CreatePoolWithMaxConns envC bEmpty (Ctx.caller 99) "u/db" 0).2.1 = bEmpty :=
  createPool_establish_fail envC bEmpty (Ctx.caller 99) "u/db" 0 "dial error"
    (Or.inl rfl) rfl

/-- Claim C6: when an entry exists, ClosePool closes that handle, removes
the map entry and succeeds, so that an immediately following GetPool for
the same name fails with the not-found error; when no entry exists,
ClosePool fails with the no-open-pool error and the state is unchanged. -/
theorem closePool_spec (b : BitDotIO) (dbName : String) :
    (∀ pool, b.pools dbName = some pool →
        (ClosePool b dbName).1 = GoResult.ok ()
        ∧ Event.closePool pool ∈ (ClosePool b dbName).2.2
        ∧ (ClosePool b dbName).2.1.pools dbName = none
        ∧ (GetPool (ClosePool b dbName).2.1 dbName).1
            = GoResult.err ("pool does not exist for db " ++ dbName))
    ∧ (b.pools dbName = none →
        (ClosePool b dbName).1 = GoResult.err ("no open pool found for db " ++ dbName)
        ∧ (ClosePool b dbName).2.1 = b) := by
  constructor
  · intro pool hsome
    simp [ClosePool, hsome, GetPool]
  · intro hnone
    simp [ClosePool, hnone]

/-- Witness for C6: closing the live entry under u/db succeeds, removes the
entry, and the following GetPool fails not-found. -/
theorem closePool_spec_witness :
    (ClosePool bLive "u/db").1 = GoResult.ok ()
    ∧ Event.closePool 1 ∈ (ClosePool bLive "u/db").2.2
    ∧ (ClosePool bLive "u/db").2.1.pools "u/db" = none
    ∧ (GetPool (ClosePool bLive "u/db").2.1 "u/db").1
        = GoResult.err ("pool does not exist for db " ++ "u/db") :=
  (closePool_spec bLive "u/db").1 1 rfl

/-- Claim C7: the connection-string builder is a pure function; with the
zero sentinel it produces exactly the base string with no max-connections
parameter appended (in particular it adds no substring the base lacks),
with a nonzero argument n it produces the base string with a
pool_max_conns parameter equal to n as suffix, and CreatePool is
definitionally CreatePoolWithMaxConns at 0. -/
theorem connString_spec :
    (∀ env b ctx dbName,
        CreatePool env b ctx dbName = CreatePoolWithMaxConns env b ctx dbName 0)
    ∧ (∀ b dbName, getConnString b dbName 0 = connStringBase b dbName)
    ∧ (∀ b dbName (n : Int), n ≠ 0 →
        getConnString b dbName n
          = connStringBase b dbName ++ " pool_max_conns=" ++ toString n
        ∧ (" pool_max_conns=" ++ toString n).toList <:+ (getConnString b dbName n).toList)
    ∧ (∀ b dbName (pat : String),
        ¬ pat.toList <:+: (connStringBase b dbName).toList →
        ¬ pat.toList <:+: (getConnString b dbName 0).toList) := by
  refine ⟨fun env b ctx dbName => rfl, fun b dbName => by simp [getConnString], ?_, ?_⟩
  · intro b dbName n hn
    refine ⟨by simp [getConnString, hn], ?_⟩
    have h1 : getConnString b dbName n
        = connStringBase b dbName ++ (" pool_max_conns=" ++ toString n) := by
      simp [getConnString, hn, String.append_assoc]
    rw [h1]
    have h2 : (connStringBase b dbName ++ (" pool_max_conns=" ++ toString n)).toList
        = (connStringBase b dbName).toList ++ (" pool_max_conns=" ++ toString n).toList := by
      simp [String.toList]
    rw [h2]
    exact List.suffix_append _ _
  · intro b dbName pat h
    simpa [getConnString] using h

/-- Witness for C7: concrete evaluation at max connections 5 and at the
zero sentinel on the empty-registry token. -/
theorem connString_spec_witness :
    getConnString bEmpty "u/db" 5
      = connStringBase bEmpty "u/db" ++ " pool_max_conns=" ++ toString (5 : Int)
    ∧ getConnString bEmpty "u/db" 0 = connStringBase bEmpty "u/db" :=
  ⟨(connString_spec.2.2.1 bEmpty "u/db" 5 (by decide)).1,
    connString_spec.2.1 bEmpty "u/db"⟩

/-- Claim C8: Connect looks up the handle via GetPool and then acquires
from it within the caller context; a lookup failure or an acquire failure
is returned wrapped with the database name, a success returns the acquired
connection, and no retry happens (at most one acquire event in the
trace). -/
theorem connect_spec (env : PgxEnv) (b : BitDotIO) (ctx : Ctx) (dbName : String) :
    (∀ msg, (GetPool b dbName).1 = GoResult.err msg →
        (Connect env b ctx dbName).1
          = GoResult.err ("unable to acquire a connection for db " ++ dbName ++ ": " ++ msg))
    ∧ (∀ pool msg, (GetPool b dbName).1 = GoResult.ok pool →
        env.acquire pool ctx = GoResult.err msg →
        (Connect env b ctx dbName).1
          = GoResult.err ("unable to acquire a connection for db " ++ dbName ++ ": " ++ msg))
    ∧ (∀ pool conn, (GetPool b dbName).1 = GoResult.ok pool →
        env.acquire pool ctx = GoResult.ok conn →
        (Connect env b ctx dbName).1 = GoResult.ok conn)
    ∧ countAcquires (Connect env b ctx dbName).2 ≤ 1 := by
  cases hdb : b.pools dbName with
  | none =>
      refine ⟨?_, ?_, ?_, ?_⟩
      · intro msg hmsg
        simp [GetPool, hdb] at hmsg
        simp [Connect, GetPool, hdb, hmsg]
      · intro pool msg hok
        simp [GetPool, hdb] at hok
      · intro pool conn hok
        simp [GetPool, hdb] at hok
      · simp [Connect, GetPool, hdb, countAcquires]
  | some pool =>
      refine ⟨?_, ?_, ?_, ?_⟩
      · intro msg hmsg
        simp [GetPool, hdb] at hmsg
      · intro pool2 msg hok hacq
        simp [GetPool, hdb] at hok
        subst hok
        simp [Connect, GetPool, hdb, hacq]
      · intro pool2 conn hok hacq
        simp [GetPool, hdb] at hok
        subst hok
        simp [Connect, GetPool, hdb, hacq]
      · cases hacq : env.acquire pool ctx with
        | ok conn => simp [Connect, GetPool, hdb, hacq, countAcquires]
        | err msg => simp [Connect, GetPool, hdb, hacq, countAcquires]

/-- Witness for C8: acquiring from the live handle under u/db in the
concrete environment returns connection 10, with a single acquire event. -/
theorem connect_spec_witness :
    (Connect envC bLive (Ctx.caller 0) "u/db").1 = GoResult.ok 10
    ∧ countAcquires (Connect envC bLive (Ctx.caller 0) "u/db").2 ≤ 1 :=
  ⟨(connect_spec envC bLive (Ctx.caller 0) "u/db").2.2.1 1 10 rfl rfl,
    (connect_spec envC bLive (Ctx.caller 0) "u/db").2.2.2⟩

/-- Claim C9: the staleness probe is independent of the caller context:
every acquire event emitted by CreatePoolWithMaxConns uses the background
context, every establishment event uses exactly the caller context, and
whenever the probe decides the outcome (live entry, or an unrecognized
probe error), the entire result is identical for any two caller contexts,
including a cancelled one. -/
theorem probe_ctx_independent (env : PgxEnv) (b : BitDotIO) (dbName : String)
    (maxConns : Int) :
    (∀ ctx p c, Event.acquire p c ∈ (CreatePoolWithMaxConns env b ctx dbName maxConns).2.2 →
        c = Ctx.background)
    ∧ (∀ ctx c s, Event.newPool c s ∈ (CreatePoolWithMaxConns env b ctx dbName maxConns).2.2 →
        c = ctx)
    ∧ (∀ ctx1 ctx2 pool, b.pools dbName = some pool →
        (∀ conn, env.acquire pool Ctx.background = GoResult.ok conn →
          CreatePoolWithMaxConns env b ctx1 dbName maxConns
            = CreatePoolWithMaxConns env b ctx2 dbName maxConns)
        ∧ (∀ msg, env.acquire pool Ctx.background = GoResult.err msg →
            msg ≠ "closed pool" →
          CreatePoolWithMaxConns env b ctx1 dbName maxConns
            = CreatePoolWithMaxConns env b ctx2 dbName maxConns)) := by
  refine ⟨?_, ?_, ?_⟩
  · intro ctx p c hmem
    cases hdb : b.pools dbName with
    | none =>
        cases hnp : env.newPool ctx (getConnString b dbName maxConns) with
        | ok q =>
            simp [CreatePoolWithMaxConns, hdb, establishPool, hnp] at hmem
        | err m =>
            simp [CreatePoolWithMaxConns, hdb, establishPool, hnp] at hmem
    | some pool =>
        cases hacq : env.acquire pool Ctx.background with
        | ok conn =>
            simp [CreatePoolWithMaxConns, hdb, hacq] at hmem
            exact hmem.2
        | err msg =>
            by_cases hmsg : msg = "closed pool"
            · subst hmsg
              cases hnp : env.newPool ctx (getConnString b dbName maxConns) with
              | ok q =>
                  simp [CreatePoolWithMaxConns, hdb, hacq, establishPool, hnp] at hmem
                  exact hmem.2
              | err m =>
                  simp [CreatePoolWithMaxConns, hdb, hacq, establishPool, hnp] at hmem
                  exact hmem.2
            · simp [CreatePoolWithMaxConns, hdb, hacq, hmsg] at hmem
              exact hmem.2
  · intro ctx c s hmem
    cases hdb : b.pools dbName with
    | none =>
        cases hnp : env.newPool ctx (getConnString b dbName maxConns) with
        | ok q =>
            simp [CreatePoolWithMaxConns, hdb, establishPool, hnp] at hmem
            exact hmem.1
        | err m =>
            simp [CreatePoolWithMaxConns, hdb, establishPool, hnp] at hmem
            exact hmem.1
    | some pool =>
        cases hacq : env.acquire pool Ctx.background with
        | ok conn =>
            simp [CreatePoolWithMaxConns, hdb, hacq] at hmem
        | err msg =>
            by_cases hmsg : msg = "closed pool"
            · subst hmsg
              cases hnp : env.newPool ctx (getConnString b dbName maxConns) with
              | ok q =>
                  simp [CreatePoolWithMaxConns, hdb, hacq, establishPool, hnp] at hmem
                  exact hmem.1
              | err m =>
                  simp [CreatePoolWithMaxConns, hdb, hacq, establishPool, hnp] at hmem
                  exact hmem.1
            · simp [CreatePoolWithMaxConns, hdb, hacq, hmsg] at hmem
  · intro ctx1 ctx2 pool hdb
    constructor
    · intro conn hacq
      simp [CreatePoolWithMaxConns, hdb, hacq]
    · intro msg hacq hne
      simp [CreatePoolWithMaxConns, hdb, hacq, hne]

/-- Witness for C9: with the live entry, the result of
CreatePoolWithMaxConns is literally the same under caller context 0 and
under caller context 99 (whose establishment would fail). -/
theorem probe_ctx_independent_witness :
    CreatePoolWithMaxConns envC bLive (Ctx.caller 0) "u/db" 0
      = CreatePoolWithMaxConns envC bLive (Ctx.caller 99) "u/db" 0 :=
  ((probe_ctx_independent envC bLive "u/db" 0).2.2 (Ctx.caller 0) (Ctx.caller 99) 1
    rfl).1 10 rfl

/-- Claim C10: the sentinel test is exact equality with zero: for every
negative maxConns value, getConnString appends a pool_max_conns parameter
equal to that negative number, and CreatePoolWithMaxConns forwards the
resulting string to the establishment call without rejecting or defaulting
it (the establishment event carries exactly that string). -/
theorem negative_maxConns_passthrough (b : BitDotIO) (dbName : String) (n : Int)
    (hneg : n < 0) :
    getConnString b dbName n
      = connStringBase b dbName ++ " pool_max_conns=" ++ toString n
    ∧ ∀ (env : PgxEnv) (ctx : Ctx), b.pools dbName = none →
        Event.newPool ctx (getConnString b dbName n)
          ∈ (CreatePoolWithMaxConns env b ctx dbName n).2.2 := by
  have hn : n ≠ 0 := by omega
  refine ⟨by simp [getConnString, hn], ?_⟩
  intro env ctx hnone
  cases hnp : env.newPool ctx (getConnString b dbName n) with
  | ok p => simp [CreatePoolWithMaxConns, hnone, establishPool, hnp]
  | err m => simp [CreatePoolWithMaxConns, hnone, establishPool, hnp]

/-- Witness for C10: at maxConns minus five the produced connection string
carries the parameter pool_max_conns=-5 and is forwarded to establishment
from the empty registry. -/
theorem negative_maxConns_passthrough_witness :
    getConnString bEmpty "u/db" (-5)
      = connStringBase bEmpty "u/db" ++ " pool_max_conns=" ++ toString (-5 : Int)
    ∧ Event.newPool (Ctx.caller 0) (getConnString bEmpty "u/db" (-5))
        ∈ (CreatePoolWithMaxConns envC bEmpty (Ctx.caller 0) "u/db" (-5)).2.2 :=
  ⟨(negative_maxConns_passthrough bEmpty "u/db" (-5) (by decide)).1,
    (negative_maxConns_passthrough bEmpty "u/db" (-5) (by decide)).2 envC
      (Ctx.caller 0) rfl⟩

end Bitdotio
